import Mathlib

/-!
Verification of the llm9p session store and synthetic file layer.

The Go sources are shallowly embedded: each Go function becomes a pure Lean
function, mutation of the session registry becomes explicit state passing on a
`SessionManager` value, and the stateless LLM backend becomes a function
parameter of type `Backend`.  Go `int` values become `Int` (session ids,
thinking budgets) or `Nat` (token counts, which the backend reports as
non-negative sizes); Go `float64` temperatures are modelled as exact decimal
fixed-point numbers (`Dec`), which is faithful for every decimal literal a
client can write and for the two-decimal formatting the files perform.
Strings are Lean `String`s manipulated through their character lists so that
every definition evaluates inside the kernel.
-/

namespace Llm9p

/-- Model of Go `strings.TrimSpace`: drop leading and trailing whitespace. -/
def trimSpace (s : String) : String :=
  String.mk (((s.data.dropWhile Char.isWhitespace).reverse.dropWhile
    Char.isWhitespace).reverse)

/-- Does the string end with a newline character?  (Model of
`strings.HasSuffix(s, "\n")`.) -/
def endsWithNewline (s : String) : Bool :=
  match s.data.getLast? with
  | some c => c = '\n'
  | none => false

/-- Model of Go `strings.TrimSuffix(s, "\n")`: strip exactly one trailing
newline when present. -/
def trimSuffixNewline (s : String) : String :=
  if endsWithNewline s then String.mk s.data.dropLast else s

/-- Numeric value of a list of decimal digit characters. -/
def digitsVal (cs : List Char) : Nat :=
  cs.foldl (fun a c => a * 10 + (c.toNat - 48)) 0

/-- Parse a non-empty all-digit character list. -/
def parseDigits? (cs : List Char) : Option Nat :=
  if cs ≠ [] ∧ cs.all Char.isDigit then some (digitsVal cs) else none

/-- Model of Go `strconv.Atoi`: optional sign followed by decimal digits. -/
def parseInt? (s : String) : Option Int :=
  match s.data with
  | '-' :: rest => (parseDigits? rest).map (fun n => -(n : Int))
  | '+' :: rest => (parseDigits? rest).map (fun n => (n : Int))
  | cs => (parseDigits? cs).map (fun n => (n : Int))

/-- Decimal fixed-point number `num / 10 ^ exp`.  Models the Go `float64`
temperature field restricted to the exact decimal values clients write. -/
structure Dec where
  num : Int
  exp : Nat
deriving DecidableEq

/-- `0 ≤ d` as a value. -/
def Dec.nonneg (d : Dec) : Prop := 0 ≤ d.num

/-- `d ≤ 2` as a value. -/
def Dec.leTwo (d : Dec) : Prop := d.num ≤ 2 * 10 ^ d.exp

instance (d : Dec) : Decidable d.nonneg := inferInstanceAs (Decidable (_ ≤ _))

instance (d : Dec) : Decidable d.leTwo := inferInstanceAs (Decidable (_ ≤ _))

/-- Model of Go `strconv.ParseFloat` restricted to plain decimal literals:
optional sign, integer digits, optional fractional digits (at least one digit
overall).  Returns the exact decimal value. -/
def parseFloat? (s : String) : Option Dec :=
  let signAndRest : Int × List Char :=
    match s.data with
    | '-' :: rest => (-1, rest)
    | '+' :: rest => (1, rest)
    | cs => (1, cs)
  let sign := signAndRest.1
  let cs := signAndRest.2
  let intPart := cs.takeWhile Char.isDigit
  match cs.dropWhile Char.isDigit with
  | [] =>
    if intPart ≠ [] then some ⟨sign * digitsVal intPart, 0⟩ else none
  | '.' :: fr =>
    if fr.all Char.isDigit ∧ (intPart ≠ [] ∨ fr ≠ []) then
      some ⟨sign * digitsVal (intPart ++ fr), fr.length⟩
    else none
  | _ => none

/-- Round the value `d` to an integer count of hundredths, ties to even
(the rounding Go's `fmt.Sprintf("%.2f", ·)` performs on exact values). -/
def round2 (d : Dec) : Int :=
  let n0 : Int := d.num * 100
  let den : Int := (10 : Int) ^ d.exp
  let q := n0 / den
  let r := n0 % den
  if 2 * r < den then q
  else if den < 2 * r then q + 1
  else if q % 2 = 0 then q else q + 1

/-- Two-digit zero-padded decimal numeral. -/
def pad2 (k : Nat) : String :=
  if k < 10 then "0" ++ toString k else toString k

/-- Model of `fmt.Sprintf("%.2f", t)` for the non-negative temperatures a
session can hold. -/
def format2 (d : Dec) : String :=
  let k := (round2 d).toNat
  toString (k / 100) ++ "." ++ pad2 (k % 100)

/-- One `{role, content}` history entry (Go struct `llm.Message`; the field
names follow their uses in `session.go`). -/
structure Message where
  Role : String
  Content : String
deriving DecidableEq

/-- Go struct `llm.SessionDefaults`. -/
structure SessionDefaults where
  Model : String
  Temperature : Dec
  SystemPrompt : String
  ThinkingTokens : Int
  Prefill : String
deriving DecidableEq

/-- Go `llm.DefaultSessionDefaults`. -/
def defaultSessionDefaults : SessionDefaults where
  Model := "claude-sonnet-4-20250514"
  Temperature := ⟨7, 1⟩
  SystemPrompt := ""
  ThinkingTokens := 0
  Prefill := ""

/-- Go struct `llm.Session` (the mutex is elided: the embedding is the
sequential semantics each lock-guarded method provides). -/
structure Session where
  ID : Int
  messages : List Message
  lastResponse : String
  lastTokens : Nat
  totalTokens : Nat
  model : String
  temperature : Dec
  systemPrompt : String
  thinkingTokens : Int
  prefill : String
  closed : Bool
deriving DecidableEq

/-- Go `llm.NewSession`. -/
def newSession (id : Int) (defaults : SessionDefaults) : Session where
  ID := id
  messages := []
  lastResponse := ""
  lastTokens := 0
  totalTokens := 0
  model := defaults.Model
  temperature := defaults.Temperature
  systemPrompt := defaults.SystemPrompt
  thinkingTokens := defaults.ThinkingTokens
  prefill := defaults.Prefill
  closed := false

/-- Go `llm.AskRequest`. -/
structure AskRequest where
  Messages : List Message
  Prompt : String
  Model : String
  Temperature : Dec
  SystemPrompt : String
  ThinkingTokens : Int
  Prefill : String
deriving DecidableEq

/-- The stateless backend: Go interface method `AskWithRequest`, returning
response text and a token count, or an error message. -/
def Backend : Type := AskRequest → Except String (String × Nat)

/-- Result of `SessionManager.Ask` (Go `error` values
`ErrSessionNotFound` / `ErrSessionClosed`, or the backend's error). -/
inductive AskError where
  | notFound
  | closed
  | backend (msg : String)
deriving DecidableEq

/-- File-operation errors of the protocol layer (`protocol.ErrNotFound`,
`protocol.ErrPermission`, `io.EOF`, `protocol.Error(msg)`). -/
inductive FsError where
  | notFound
  | permission
  | eof
  | invalid (msg : String)
deriving DecidableEq

/-- Go struct `llm.SessionManager`: the `id → Session` registry (an
association list standing for the Go map), the next-id counter and the
default template.  The backend client is passed to `ask` explicitly. -/
structure SessionManager where
  sessions : List (Int × Session)
  nextID : Int
  defaults : SessionDefaults
deriving DecidableEq

/-- Go `llm.NewSessionManager`. -/
def newSessionManager : SessionManager where
  sessions := []
  nextID := 0
  defaults := defaultSessionDefaults

namespace SessionManager

/-- Go `SessionManager.Get`: map lookup. -/
def get (sm : SessionManager) (id : Int) : Option Session :=
  (sm.sessions.find? (fun p => p.1 = id)).map (fun p => p.2)

/-- Point update of the registry at `id` (the effect of calling a
lock-guarded mutator on the `*Session` returned by `Get`). -/
def upd (sm : SessionManager) (id : Int) (f : Session → Session) :
    SessionManager :=
  { sm with
    sessions := sm.sessions.map (fun p => if p.1 = id then (p.1, f p.2) else p) }

/-- Go `SessionManager.Create`: allocate the next id, register a fresh
session built from the defaults, return the id. -/
def create (sm : SessionManager) : SessionManager × Int :=
  let id := sm.nextID
  ({ sm with
      nextID := sm.nextID + 1
      sessions := (id, newSession id sm.defaults) :: sm.sessions },
   id)

/-- Go `SessionManager.Close`: unknown id is a silent no-op; otherwise mark
the session closed and remove it from the registry. -/
def close (sm : SessionManager) (id : Int) : SessionManager :=
  match sm.get id with
  | none => sm
  | some _ =>
    { sm with
      sessions :=
        ((sm.upd id (fun s => { s with closed := true })).sessions).filter
          (fun p => p.1 ≠ id) }

/-- Go `Session.Reset` as invoked through `SessionManager.Reset`. -/
def resetSession (s : Session) : Session :=
  { s with messages := [], lastResponse := "", lastTokens := 0, totalTokens := 0 }

/-- Go `SessionManager.Reset`: no-op on an unknown id. -/
def reset (sm : SessionManager) (id : Int) : SessionManager :=
  match sm.get id with
  | none => sm
  | some _ => sm.upd id resetSession

/-- Go `SessionManager.ListSessions`: the registered ids. -/
def listSessions (sm : SessionManager) : List Int :=
  sm.sessions.map (fun p => p.1)

/-- The `AskRequest` built inside `SessionManager.Ask` from the session
snapshot and the prompt. -/
def buildReq (s : Session) (prompt : String) : AskRequest where
  Messages := s.messages
  Prompt := prompt
  Model := s.model
  Temperature := s.temperature
  SystemPrompt := s.systemPrompt
  ThinkingTokens := s.thinkingTokens
  Prefill := s.prefill

/-- Go `SessionManager.Ask`: look up the session, refuse closed ones, call
the backend; on failure store `"Error: " ++ msg` as the last response and
change nothing else; on success append the user and assistant entries, add
the token count and store the response. -/
def ask (backend : Backend) (sm : SessionManager) (id : Int)
    (prompt : String) : SessionManager × Except AskError String :=
  match sm.get id with
  | none => (sm, Except.error AskError.notFound)
  | some s =>
    if s.closed then (sm, Except.error AskError.closed)
    else
      match backend (buildReq s prompt) with
      | Except.error e =>
        (sm.upd id (fun t => { t with lastResponse := "Error: " ++ e }),
         Except.error (AskError.backend e))
      | Except.ok (response, tokens) =>
        (sm.upd id (fun t =>
          { t with
            messages := t.messages ++
              [⟨"user", prompt⟩, ⟨"assistant", response⟩]
            lastTokens := tokens
            totalTokens := t.totalTokens + tokens
            lastResponse := response }),
         Except.ok response)

end SessionManager

/-! ### The synthetic file layer (`llmfs`)

Each leaf file synthesizes its content from the live session state.  For
every file we give the content-synthesis function (on a `Session`), the
stat length (as the code computes it — `none` means the length field is
left at the protocol layer's base-file default), and the read/write
operations on the manager.  Reads model Go's
`Read(p []byte, offset int64)` as a function of the destination capacity
and the offset, returning the bytes delivered; `FsError.eof` is `io.EOF`.
Every Go `Write` implementation ignores its offset argument, so the write
models omit it. -/

/-- Shared read logic of every leaf file: EOF at or past the end of the
freshly synthesized content, otherwise `copy(p, content[offset:])`. -/
def readAt (content : String) (cap offset : Nat) : Except FsError String :=
  if content.length ≤ offset then Except.error FsError.eof
  else Except.ok (String.mk ((content.data.drop offset).take cap))

/-- Minimal JSON string escaping (backslash, quote, newline), standing in
for Go `encoding/json` string encoding. -/
def escapeJson (s : String) : String :=
  String.mk (s.data.foldr (fun c acc =>
    if c = '\\' then '\\' :: '\\' :: acc
    else if c = '"' then '\\' :: '"' :: acc
    else if c = '\n' then '\\' :: 'n' :: acc
    else c :: acc) [])

/-- Modelled from the spec: `Session.MessagesJSON` serializes the history
"as structured text" via `json.MarshalIndent(messages, "", "  ")`; the
`llm.Message` declaration with its JSON tags is not among the sources, so
the exact object-key spelling follows the spec's `{role, content}`.  No
claim depends on the byte-level shape, only on its length being shared
between read and stat. -/
def messagesJSON (ms : List Message) : String :=
  match ms with
  | [] => "[]"
  | _ =>
    "[\n" ++
    String.intercalate ",\n" (ms.map (fun m =>
      "  \x7b\n    \"role\": \"" ++ escapeJson m.Role ++
      "\",\n    \"content\": \"" ++ escapeJson m.Content ++ "\"\n  \x7d")) ++
    "\n]"

/-- Content of `ask` (`SessionAskFile.Read`): the last response,
newline-terminated when non-empty and not already terminated. -/
def askContent (s : Session) : String :=
  let c := s.lastResponse
  if c ≠ "" ∧ ¬endsWithNewline c then c ++ "\n" else c

/-- Stat length of `ask` (`SessionAskFile.Stat`): the raw last-response
length. -/
def askStatLen (sm : SessionManager) (id : Int) : Option Nat :=
  (sm.get id).map (fun s => s.lastResponse.length)

/-- Content of `context` (`SessionContextFile.Read`): the JSON history plus
a newline. -/
def contextContent (s : Session) : String :=
  messagesJSON s.messages ++ "\n"

/-- Stat length of `context` (`SessionContextFile.Stat`). -/
def contextStatLen (sm : SessionManager) (id : Int) : Option Nat :=
  (sm.get id).map (fun s => (messagesJSON s.messages).length + 1)

/-- Content of `model` (`SessionModelFile.Read`). -/
def modelContent (s : Session) : String :=
  s.model ++ "\n"

/-- Stat length of `model` (`SessionModelFile.Stat`). -/
def modelStatLen (sm : SessionManager) (id : Int) : Option Nat :=
  (sm.get id).map (fun s => s.model.length + 1)

/-- Content of `temperature` (`SessionTemperatureFile.Read`):
`fmt.Sprintf("%.2f\n", temp)`. -/
def temperatureContent (s : Session) : String :=
  format2 s.temperature ++ "\n"

/-- Stat length of `temperature` (`SessionTemperatureFile.Stat`). -/
def temperatureStatLen (sm : SessionManager) (id : Int) : Option Nat :=
  (sm.get id).map (fun s => (format2 s.temperature ++ "\n").length)

/-- Content of `system` (`SessionSystemFile.Read`). -/
def systemContent (s : Session) : String :=
  let c := s.systemPrompt
  if c ≠ "" ∧ ¬endsWithNewline c then c ++ "\n" else c

/-- Stat length of `system` (`SessionSystemFile.Stat`): set only when the
prompt is non-empty. -/
def systemStatLen (sm : SessionManager) (id : Int) : Option Nat :=
  match sm.get id with
  | none => none
  | some s => if s.systemPrompt ≠ "" then some (s.systemPrompt.length + 1) else none

/-- Content of `thinking` (`SessionThinkingFile.Read`): the tri-state
encoding. -/
def thinkingContent (s : Session) : String :=
  if s.thinkingTokens < 0 then "max\n"
  else if s.thinkingTokens = 0 then "disabled\n"
  else toString s.thinkingTokens ++ "\n"

/-- Stat length of `thinking` (`SessionThinkingFile.Stat`): a constant
estimate of 16, independent of the session. -/
def thinkingStatLen (_sm : SessionManager) (_id : Int) : Option Nat :=
  some 16

/-- Content of `prefill` (`SessionPrefillFile.Read`). -/
def prefillContent (s : Session) : String :=
  let c := s.prefill
  if c ≠ "" ∧ ¬endsWithNewline c then c ++ "\n" else c

/-- Stat length of `prefill` (`SessionPrefillFile.Stat`): set only when the
prefill is non-empty. -/
def prefillStatLen (sm : SessionManager) (id : Int) : Option Nat :=
  match sm.get id with
  | none => none
  | some s => if s.prefill ≠ "" then some (s.prefill.length + 1) else none

/-- `SessionAskFile.Read`. -/
def readAskFile (sm : SessionManager) (id : Int) (cap offset : Nat) :
    Except FsError String :=
  match sm.get id with
  | none => Except.error FsError.notFound
  | some s => readAt (askContent s) cap offset

/-- `SessionContextFile.Read`. -/
def readContextFile (sm : SessionManager) (id : Int) (cap offset : Nat) :
    Except FsError String :=
  match sm.get id with
  | none => Except.error FsError.notFound
  | some s => readAt (contextContent s) cap offset

/-- `SessionCtlFile.Read`: always end-of-data, without consulting the
registry. -/
def readCtlFile (_sm : SessionManager) (_id : Int) (_cap _offset : Nat) :
    Except FsError String :=
  Except.error FsError.eof

/-- `SessionModelFile.Read`. -/
def readModelFile (sm : SessionManager) (id : Int) (cap offset : Nat) :
    Except FsError String :=
  match sm.get id with
  | none => Except.error FsError.notFound
  | some s => readAt (modelContent s) cap offset

/-- `SessionTemperatureFile.Read`. -/
def readTemperatureFile (sm : SessionManager) (id : Int) (cap offset : Nat) :
    Except FsError String :=
  match sm.get id with
  | none => Except.error FsError.notFound
  | some s => readAt (temperatureContent s) cap offset

/-- `SessionSystemFile.Read`. -/
def readSystemFile (sm : SessionManager) (id : Int) (cap offset : Nat) :
    Except FsError String :=
  match sm.get id with
  | none => Except.error FsError.notFound
  | some s => readAt (systemContent s) cap offset

/-- `SessionThinkingFile.Read`. -/
def readThinkingFile (sm : SessionManager) (id : Int) (cap offset : Nat) :
    Except FsError String :=
  match sm.get id with
  | none => Except.error FsError.notFound
  | some s => readAt (thinkingContent s) cap offset

/-- `SessionPrefillFile.Read`. -/
def readPrefillFile (sm : SessionManager) (id : Int) (cap offset : Nat) :
    Except FsError String :=
  match sm.get id with
  | none => Except.error FsError.notFound
  | some s => readAt (prefillContent s) cap offset

/-- `SessionAskFile.Write`: trim the prompt; empty input is a no-op; a
failing `Ask` is absorbed — the write reports the full input byte count as
successfully written in every path. -/
def writeAskFile (backend : Backend) (sm : SessionManager) (id : Int)
    (input : String) : SessionManager × Except FsError Nat :=
  let prompt := trimSpace input
  if prompt = "" then (sm, Except.ok input.length)
  else ((sm.ask backend id prompt).1, Except.ok input.length)

/-- `SessionCtlFile.Write`: `reset` and `close` (delegating to the
manager's idempotent operations, with no registration check of its own);
anything else is an unknown command. -/
def writeCtlFile (sm : SessionManager) (id : Int) (input : String) :
    SessionManager × Except FsError Nat :=
  let cmd := trimSpace input
  if cmd = "reset" then (sm.reset id, Except.ok input.length)
  else if cmd = "close" then (sm.close id, Except.ok input.length)
  else (sm, Except.error (FsError.invalid ("unknown command: " ++ cmd)))

/-- `SessionModelFile.Write`: trimmed, empty input ignored. -/
def writeModelFile (sm : SessionManager) (id : Int) (input : String) :
    SessionManager × Except FsError Nat :=
  match sm.get id with
  | none => (sm, Except.error FsError.notFound)
  | some _ =>
    let model := trimSpace input
    if model ≠ "" then
      (sm.upd id (fun s => { s with model := model }), Except.ok input.length)
    else (sm, Except.ok input.length)

/-- `SessionTemperatureFile.Write`: parse as float, enforce `[0.0, 2.0]`,
reject without mutation otherwise. -/
def writeTemperatureFile (sm : SessionManager) (id : Int) (input : String) :
    SessionManager × Except FsError Nat :=
  match sm.get id with
  | none => (sm, Except.error FsError.notFound)
  | some _ =>
    match parseFloat? (trimSpace input) with
    | none => (sm, Except.error (FsError.invalid "invalid temperature"))
    | some t =>
      if ¬t.nonneg ∨ ¬t.leTwo then
        (sm, Except.error (FsError.invalid "temperature must be between 0.0 and 2.0"))
      else
        (sm.upd id (fun s => { s with temperature := t }), Except.ok input.length)

/-- `SessionSystemFile.Write`: trimmed; an empty write clears the prompt. -/
def writeSystemFile (sm : SessionManager) (id : Int) (input : String) :
    SessionManager × Except FsError Nat :=
  match sm.get id with
  | none => (sm, Except.error FsError.notFound)
  | some _ =>
    (sm.upd id (fun s => { s with systemPrompt := trimSpace input }),
     Except.ok input.length)

/-- `SessionThinkingFile.Write`: the tri-state synonyms, otherwise
`strconv.Atoi`; unparsable input is rejected without mutation. -/
def writeThinkingFile (sm : SessionManager) (id : Int) (input : String) :
    SessionManager × Except FsError Nat :=
  match sm.get id with
  | none => (sm, Except.error FsError.notFound)
  | some _ =>
    let value := trimSpace input
    if value = "max" ∨ value = "-1" then
      (sm.upd id (fun s => { s with thinkingTokens := -1 }), Except.ok input.length)
    else if value = "disabled" ∨ value = "off" ∨ value = "0" then
      (sm.upd id (fun s => { s with thinkingTokens := 0 }), Except.ok input.length)
    else
      match parseInt? value with
      | none => (sm, Except.error (FsError.invalid "invalid thinking budget"))
      | some tokens =>
        (sm.upd id (fun s => { s with thinkingTokens := tokens }),
         Except.ok input.length)

/-- `SessionPrefillFile.Write`: no trimming, but exactly one trailing
newline is stripped. -/
def writePrefillFile (sm : SessionManager) (id : Int) (input : String) :
    SessionManager × Except FsError Nat :=
  match sm.get id with
  | none => (sm, Except.error FsError.notFound)
  | some _ =>
    (sm.upd id (fun s => { s with prefill := trimSuffixNewline input }),
     Except.ok input.length)

/-- A node the root directory can resolve to. -/
inductive Node where
  | newFile
  | sessionDir (id : Int)
deriving DecidableEq

/-- `SessionsDir.Lookup`: the static `new` entry, otherwise parse the name
as a decimal id and require it to be registered. -/
def rootLookup (sm : SessionManager) (name : String) : Except FsError Node :=
  if name = "new" then Except.ok Node.newFile
  else
    match parseInt? name with
    | none => Except.error FsError.notFound
    | some id =>
      match sm.get id with
      | none => Except.error FsError.notFound
      | some _ => Except.ok (Node.sessionDir id)

/-- The names `SessionsDir.Children` lists: `new` plus one directory per
registered session (named by its decimal id). -/
def rootChildrenNames (sm : SessionManager) : List String :=
  "new" :: (sm.listSessions.map (fun id => toString id))

/-- The eight leaf-file names of a session directory. -/
inductive LeafName where
  | ask | context | ctl | model | temperature | system | thinking | prefill
deriving DecidableEq

/-- `SessionDir.Lookup`: fails `NotFound` for a retired id, otherwise
resolves the eight leaf names. -/
def sessionDirLookup (sm : SessionManager) (id : Int) (name : String) :
    Except FsError LeafName :=
  match sm.get id with
  | none => Except.error FsError.notFound
  | some _ =>
    if name = "ask" then Except.ok LeafName.ask
    else if name = "context" then Except.ok LeafName.context
    else if name = "ctl" then Except.ok LeafName.ctl
    else if name = "model" then Except.ok LeafName.model
    else if name = "temperature" then Except.ok LeafName.temperature
    else if name = "system" then Except.ok LeafName.system
    else if name = "thinking" then Except.ok LeafName.thinking
    else if name = "prefill" then Except.ok LeafName.prefill
    else Except.error FsError.notFound

/-- `NewFile.Read`: at offset zero create a session and return its decimal
id; at a positive offset return end-of-data without creating anything.
(`NewFile.Write` always fails with a permission error.) -/
def readNewFile (sm : SessionManager) (cap offset : Nat) :
    SessionManager × Except FsError String :=
  if 0 < offset then (sm, Except.error FsError.eof)
  else
    let p := sm.create
    (p.1, Except.ok (String.mk ((toString p.2 ++ "\n").data.take cap)))

/-! ### Whole-program operations

`Op` enumerates the state-changing operations the file surface exposes; a
run from `newSessionManager` is an arbitrary sequential client history.
The backend outcome for an `ask` write travels inside the operation, which
models an arbitrary stateless backend.  `run` also collects the ids the
clone file issued. -/

/-- One client operation against the tree. -/
inductive Op where
  | readNew (offset : Nat)
  | writeAsk (id : Int) (input : String) (backend : Backend)
  | writeCtl (id : Int) (input : String)
  | writeModel (id : Int) (input : String)
  | writeTemperature (id : Int) (input : String)
  | writeSystem (id : Int) (input : String)
  | writeThinking (id : Int) (input : String)
  | writePrefill (id : Int) (input : String)

/-- Apply one operation; the second component is the id issued when the
operation was a creating read of `new`. -/
def step (sm : SessionManager) : Op → SessionManager × Option Int
  | Op.readNew offset =>
    if 0 < offset then (sm, none)
    else
      let p := sm.create
      (p.1, some p.2)
  | Op.writeAsk id input backend => ((writeAskFile backend sm id input).1, none)
  | Op.writeCtl id input => ((writeCtlFile sm id input).1, none)
  | Op.writeModel id input => ((writeModelFile sm id input).1, none)
  | Op.writeTemperature id input => ((writeTemperatureFile sm id input).1, none)
  | Op.writeSystem id input => ((writeSystemFile sm id input).1, none)
  | Op.writeThinking id input => ((writeThinkingFile sm id input).1, none)
  | Op.writePrefill id input => ((writePrefillFile sm id input).1, none)

/-- Run a sequence of operations, collecting every id the clone file
issued, in order. -/
def run (sm : SessionManager) : List Op → SessionManager × List Int
  | [] => (sm, [])
  | op :: ops =>
    let p := step sm op
    let q := run p.1 ops
    (q.1, p.2.toList ++ q.2)

/-- Does the operation route to `SessionManager.Reset` (a `ctl` write whose
trimmed payload is `reset`)? -/
def Op.isReset : Op → Prop
  | Op.writeCtl _ input => trimSpace input = "reset"
  | _ => False

instance : (op : Op) → Decidable op.isReset
  | Op.readNew _ => Decidable.isFalse (fun h => h)
  | Op.writeAsk _ _ _ => Decidable.isFalse (fun h => h)
  | Op.writeCtl _ input => inferInstanceAs (Decidable (trimSpace input = "reset"))
  | Op.writeModel _ _ => Decidable.isFalse (fun h => h)
  | Op.writeTemperature _ _ => Decidable.isFalse (fun h => h)
  | Op.writeSystem _ _ => Decidable.isFalse (fun h => h)
  | Op.writeThinking _ _ => Decidable.isFalse (fun h => h)
  | Op.writePrefill _ _ => Decidable.isFalse (fun h => h)

/-! ### Registry lemmas -/

namespace SessionManager

/-- Lookup on the underlying association list. -/
def getL (l : List (Int × Session)) (id : Int) : Option Session :=
  (l.find? (fun p => p.1 = id)).map (fun p => p.2)

theorem get_eq_getL (sm : SessionManager) (id : Int) :
    sm.get id = getL sm.sessions id := rfl

theorem getL_cons (p : Int × Session) (l : List (Int × Session)) (id : Int) :
    getL (p :: l) id = if p.1 = id then some p.2 else getL l id := by
  by_cases h : p.1 = id
  · rw [getL, List.find?_cons_of_pos _ (by simpa using h), if_pos h]; rfl
  · rw [getL, List.find?_cons_of_neg _ (by simpa using h), if_neg h]; rfl

theorem getL_updList_self (l : List (Int × Session)) (id : Int)
    (f : Session → Session) :
    getL (l.map (fun p => if p.1 = id then (p.1, f p.2) else p)) id
      = (getL l id).map f := by
  induction l with
  | nil => rfl
  | cons p l ih =>
    rw [List.map_cons]
    by_cases h : p.1 = id
    · rw [if_pos h, getL_cons, getL_cons, if_pos h, if_pos h]; rfl
    · rw [if_neg h, getL_cons, getL_cons, if_neg h, if_neg h, ih]

theorem getL_updList_ne (l : List (Int × Session)) (i j : Int)
    (f : Session → Session) (h : j ≠ i) :
    getL (l.map (fun p => if p.1 = i then (p.1, f p.2) else p)) j
      = getL l j := by
  induction l with
  | nil => rfl
  | cons p l ih =>
    rw [List.map_cons]
    by_cases hp : p.1 = i
    · have hpj : ¬p.1 = j := fun hh => h (by rw [← hh, hp])
      rw [if_pos hp, getL_cons, getL_cons, if_neg hpj, if_neg hpj, ih]
    · rw [if_neg hp, getL_cons, getL_cons]
      by_cases hj : p.1 = j
      · rw [if_pos hj, if_pos hj]
      · rw [if_neg hj, if_neg hj, ih]

theorem get_upd_self (sm : SessionManager) (id : Int) (f : Session → Session) :
    (sm.upd id f).get id = (sm.get id).map f :=
  getL_updList_self sm.sessions id f

theorem get_upd_ne (sm : SessionManager) (i j : Int) (f : Session → Session)
    (h : j ≠ i) : (sm.upd i f).get j = sm.get j :=
  getL_updList_ne sm.sessions i j f h

theorem mem_of_get_eq_some {sm : SessionManager} {id : Int} {s : Session}
    (h : sm.get id = some s) : (id, s) ∈ sm.sessions := by
  unfold SessionManager.get at h
  cases hf : sm.sessions.find? (fun p => p.1 = id) with
  | none => rw [hf] at h; exact absurd h (by simp)
  | some q =>
    rw [hf] at h
    have hq : q.1 = id := by
      have := List.find?_some hf
      exact of_decide_eq_true this
    have hm := List.mem_of_find?_eq_some hf
    have hs : q.2 = s := by simpa using h
    have : q = (id, s) := by
      cases q; simp_all
    rwa [this] at hm

theorem get_eq_none_iff {sm : SessionManager} {id : Int} :
    sm.get id = none ↔ ∀ p ∈ sm.sessions, p.1 ≠ id := by
  unfold SessionManager.get
  constructor
  · intro h p hp
    cases hf : sm.sessions.find? (fun q => q.1 = id) with
    | none =>
      have := List.find?_eq_none.mp hf p hp
      simpa using this
    | some q => rw [hf] at h; simp at h
  · intro h
    have : sm.sessions.find? (fun q => q.1 = id) = none :=
      List.find?_eq_none.mpr (fun p hp => by simpa using h p hp)
    rw [this]; rfl

theorem get_close_self (sm : SessionManager) (id : Int) :
    (sm.close id).get id = none := by
  unfold SessionManager.close
  cases h : sm.get id with
  | none => exact h
  | some s =>
    apply get_eq_none_iff.mpr
    intro p hp
    have := (List.mem_filter.mp hp).2
    simpa using this

theorem getL_filterNe (l : List (Int × Session)) (i j : Int) (h : j ≠ i) :
    getL (l.filter (fun p => p.1 ≠ i)) j = getL l j := by
  induction l with
  | nil => rfl
  | cons p l ih =>
    by_cases hp : p.1 = i
    · have hpj : ¬p.1 = j := fun hh => h (by rw [← hh, hp])
      rw [List.filter_cons_of_neg (by simpa using hp), ih, getL_cons, if_neg hpj]
    · rw [List.filter_cons_of_pos (by simpa using hp), getL_cons, getL_cons]
      by_cases hj : p.1 = j
      · rw [if_pos hj, if_pos hj]
      · rw [if_neg hj, if_neg hj, ih]

theorem get_close_ne (sm : SessionManager) (i j : Int) (h : j ≠ i) :
    (sm.close i).get j = sm.get j := by
  unfold SessionManager.close
  cases hg : sm.get i with
  | none => rfl
  | some s =>
    rw [get_eq_getL]
    exact (getL_filterNe _ i j h).trans (get_upd_ne sm i j _ h)

theorem get_create_ne (sm : SessionManager) (id : Int)
    (h : id ≠ sm.nextID) : (sm.create.1).get id = sm.get id := by
  rw [get_eq_getL]
  show getL ((sm.nextID, newSession sm.nextID sm.defaults) :: sm.sessions) id
    = sm.get id
  rw [getL_cons, if_neg (fun hh => h hh.symm)]
  rfl

theorem get_create_self (sm : SessionManager) :
    (sm.create.1).get sm.nextID = some (newSession sm.nextID sm.defaults) := by
  rw [get_eq_getL]
  show getL ((sm.nextID, newSession sm.nextID sm.defaults) :: sm.sessions)
    sm.nextID = _
  rw [getL_cons, if_pos rfl]

@[simp] theorem nextID_upd (sm : SessionManager) (id : Int)
    (f : Session → Session) : (sm.upd id f).nextID = sm.nextID := rfl

@[simp] theorem nextID_close (sm : SessionManager) (id : Int) :
    (sm.close id).nextID = sm.nextID := by
  unfold SessionManager.close; split <;> rfl

@[simp] theorem nextID_reset (sm : SessionManager) (id : Int) :
    (sm.reset id).nextID = sm.nextID := by
  unfold SessionManager.reset; split <;> rfl

@[simp] theorem nextID_ask (backend : Backend) (sm : SessionManager)
    (id : Int) (prompt : String) :
    (sm.ask backend id prompt).1.nextID = sm.nextID := by
  unfold SessionManager.ask
  split
  · rfl
  · split
    · rfl
    · split <;> rfl

end SessionManager

@[simp] theorem nextID_writeAskFile (backend : Backend) (sm : SessionManager)
    (id : Int) (input : String) :
    (writeAskFile backend sm id input).1.nextID = sm.nextID := by
  by_cases h : trimSpace input = "" <;> simp [writeAskFile, h]

@[simp] theorem nextID_writeCtlFile (sm : SessionManager) (id : Int)
    (input : String) :
    (writeCtlFile sm id input).1.nextID = sm.nextID := by
  by_cases h1 : trimSpace input = "reset" <;>
    by_cases h2 : trimSpace input = "close" <;>
    simp [writeCtlFile, h1, h2]

@[simp] theorem nextID_writeModelFile (sm : SessionManager) (id : Int)
    (input : String) :
    (writeModelFile sm id input).1.nextID = sm.nextID := by
  cases hg : sm.get id <;> by_cases hm : trimSpace input = "" <;>
    simp [writeModelFile, hg, hm]

@[simp] theorem nextID_writeTemperatureFile (sm : SessionManager) (id : Int)
    (input : String) :
    (writeTemperatureFile sm id input).1.nextID = sm.nextID := by
  cases hg : sm.get id with
  | none => simp [writeTemperatureFile, hg]
  | some s =>
    cases hp : parseFloat? (trimSpace input) with
    | none => simp [writeTemperatureFile, hg, hp]
    | some t =>
      by_cases hr : ¬t.nonneg ∨ ¬t.leTwo <;>
        simp [writeTemperatureFile, hg, hp, hr]

@[simp] theorem nextID_writeSystemFile (sm : SessionManager) (id : Int)
    (input : String) :
    (writeSystemFile sm id input).1.nextID = sm.nextID := by
  cases hg : sm.get id <;> simp [writeSystemFile, hg]

@[simp] theorem nextID_writeThinkingFile (sm : SessionManager) (id : Int)
    (input : String) :
    (writeThinkingFile sm id input).1.nextID = sm.nextID := by
  cases hg : sm.get id with
  | none => simp [writeThinkingFile, hg]
  | some s =>
    by_cases h1 : trimSpace input = "max" ∨ trimSpace input = "-1"
    · simp [writeThinkingFile, hg, h1]
    · by_cases h2 : trimSpace input = "disabled" ∨ trimSpace input = "off" ∨
        trimSpace input = "0"
      · simp [writeThinkingFile, hg, h1, h2]
      · cases hi : parseInt? (trimSpace input) <;>
          simp [writeThinkingFile, hg, h1, h2, hi]

@[simp] theorem nextID_writePrefillFile (sm : SessionManager) (id : Int)
    (input : String) :
    (writePrefillFile sm id input).1.nextID = sm.nextID := by
  cases hg : sm.get id <;> simp [writePrefillFile, hg]

/-! ### Lifecycle and id invariants -/

/-- Every session present in the registry is open. -/
def AllOpen (sm : SessionManager) : Prop :=
  ∀ p ∈ sm.sessions, p.2.closed = false

/-- Every registered id is below the next-id counter. -/
def KeysLt (sm : SessionManager) : Prop :=
  ∀ p ∈ sm.sessions, p.1 < sm.nextID

theorem allOpen_upd {sm : SessionManager} {id : Int} (f : Session → Session)
    (hf : ∀ s, (f s).closed = s.closed) (ho : AllOpen sm) :
    AllOpen (sm.upd id f) := by
  intro p hp
  obtain ⟨q, hq, rfl⟩ := List.mem_map.mp hp
  by_cases hqi : q.1 = id
  · rw [if_pos hqi]
    show (f q.2).closed = false
    rw [hf]
    exact ho q hq
  · rw [if_neg hqi]
    exact ho q hq

theorem allOpen_create {sm : SessionManager} (ho : AllOpen sm) :
    AllOpen sm.create.1 := by
  intro p hp
  rcases List.mem_cons.mp hp with h | h
  · rw [h]; rfl
  · exact ho p h

theorem allOpen_close {sm : SessionManager} {id : Int} (ho : AllOpen sm) :
    AllOpen (sm.close id) := by
  unfold SessionManager.close
  split
  · exact ho
  · intro p hp
    have hmem := (List.mem_filter.mp hp).1
    have hne : p.1 ≠ id := by simpa using (List.mem_filter.mp hp).2
    obtain ⟨q, hq, rfl⟩ := List.mem_map.mp hmem
    by_cases hqi : q.1 = id
    · rw [if_pos hqi] at hne
      exact absurd hqi hne
    · rw [if_neg hqi]
      exact ho q hq

theorem allOpen_reset {sm : SessionManager} {id : Int} (ho : AllOpen sm) :
    AllOpen (sm.reset id) := by
  unfold SessionManager.reset
  split
  · exact ho
  · exact allOpen_upd _ (fun s => rfl) ho

theorem allOpen_ask {backend : Backend} {sm : SessionManager} {id : Int}
    {prompt : String} (ho : AllOpen sm) :
    AllOpen (sm.ask backend id prompt).1 := by
  unfold SessionManager.ask
  split
  · exact ho
  · split
    · exact ho
    · split
      · exact allOpen_upd _ (fun s => rfl) ho
      · exact allOpen_upd _ (fun s => rfl) ho

theorem allOpen_step {sm : SessionManager} (op : Op) (ho : AllOpen sm) :
    AllOpen (step sm op).1 := by
  cases op with
  | readNew offset =>
    by_cases h : 0 < offset
    · simpa [step, h] using ho
    · simpa [step, h] using allOpen_create ho
  | writeAsk id input backend =>
    by_cases h : trimSpace input = ""
    · simpa [step, writeAskFile, h] using ho
    · simpa [step, writeAskFile, h] using allOpen_ask ho
  | writeCtl id input =>
    by_cases h1 : trimSpace input = "reset"
    · simpa [step, writeCtlFile, h1] using allOpen_reset ho
    · by_cases h2 : trimSpace input = "close"
      · simpa [step, writeCtlFile, h1, h2] using allOpen_close ho
      · simpa [step, writeCtlFile, h1, h2] using ho
  | writeModel id input =>
    cases hg : sm.get id with
    | none => simpa [step, writeModelFile, hg] using ho
    | some s =>
      by_cases hm : trimSpace input = ""
      · simpa [step, writeModelFile, hg, hm] using ho
      · simpa [step, writeModelFile, hg, hm] using
          allOpen_upd (fun s => { s with model := trimSpace input })
            (fun s => rfl) ho
  | writeTemperature id input =>
    cases hg : sm.get id with
    | none => simpa [step, writeTemperatureFile, hg] using ho
    | some s =>
      cases hp : parseFloat? (trimSpace input) with
      | none => simpa [step, writeTemperatureFile, hg, hp] using ho
      | some t =>
        by_cases hr : ¬t.nonneg ∨ ¬t.leTwo
        · simpa [step, writeTemperatureFile, hg, hp, hr] using ho
        · simpa [step, writeTemperatureFile, hg, hp, hr] using
            allOpen_upd (fun s => { s with temperature := t })
              (fun s => rfl) ho
  | writeSystem id input =>
    cases hg : sm.get id with
    | none => simpa [step, writeSystemFile, hg] using ho
    | some s =>
      simpa [step, writeSystemFile, hg] using
        allOpen_upd (fun s => { s with systemPrompt := trimSpace input })
          (fun s => rfl) ho
  | writeThinking id input =>
    cases hg : sm.get id with
    | none => simpa [step, writeThinkingFile, hg] using ho
    | some s =>
      by_cases h1 : trimSpace input = "max" ∨ trimSpace input = "-1"
      · simpa [step, writeThinkingFile, hg, h1] using
          allOpen_upd (fun s => { s with thinkingTokens := -1 })
            (fun s => rfl) ho
      · by_cases h2 : trimSpace input = "disabled" ∨ trimSpace input = "off" ∨
          trimSpace input = "0"
        · simpa [step, writeThinkingFile, hg, h1, h2] using
            allOpen_upd (fun s => { s with thinkingTokens := 0 })
              (fun s => rfl) ho
        · cases hi : parseInt? (trimSpace input) with
          | none => simpa [step, writeThinkingFile, hg, h1, h2, hi] using ho
          | some n =>
            simpa [step, writeThinkingFile, hg, h1, h2, hi] using
              allOpen_upd (fun s => { s with thinkingTokens := n })
                (fun s => rfl) ho
  | writePrefill id input =>
    cases hg : sm.get id with
    | none => simpa [step, writePrefillFile, hg] using ho
    | some s =>
      simpa [step, writePrefillFile, hg] using
        allOpen_upd (fun s => { s with prefill := trimSuffixNewline input })
          (fun s => rfl) ho

theorem run_allOpen (ops : List Op) {sm : SessionManager} (ho : AllOpen sm) :
    AllOpen (run sm ops).1 := by
  induction ops generalizing sm with
  | nil => exact ho
  | cons op ops ih => exact ih (allOpen_step op ho)

theorem allOpen_newSessionManager : AllOpen newSessionManager := by
  intro p hp
  exact absurd hp (List.not_mem_nil p)

theorem keysLt_upd {sm : SessionManager} {id : Int} (f : Session → Session)
    (hk : KeysLt sm) : KeysLt (sm.upd id f) := by
  intro p hp
  obtain ⟨q, hq, rfl⟩ := List.mem_map.mp hp
  by_cases hqi : q.1 = id
  · rw [if_pos hqi]; exact hk q hq
  · rw [if_neg hqi]; exact hk q hq

theorem keysLt_create {sm : SessionManager} (hk : KeysLt sm) :
    KeysLt sm.create.1 := by
  intro p hp
  rcases List.mem_cons.mp hp with h | h
  · rw [h]
    show sm.nextID < sm.nextID + 1
    omega
  · have := hk p h
    show p.1 < sm.nextID + 1
    omega

theorem keysLt_close {sm : SessionManager} {id : Int} (hk : KeysLt sm) :
    KeysLt (sm.close id) := by
  unfold SessionManager.close
  split
  · exact hk
  · intro p hp
    have hmem := (List.mem_filter.mp hp).1
    obtain ⟨q, hq, rfl⟩ := List.mem_map.mp hmem
    by_cases hqi : q.1 = id
    · rw [if_pos hqi]; exact hk q hq
    · rw [if_neg hqi]; exact hk q hq

theorem keysLt_reset {sm : SessionManager} {id : Int} (hk : KeysLt sm) :
    KeysLt (sm.reset id) := by
  unfold SessionManager.reset
  split
  · exact hk
  · exact keysLt_upd _ hk

theorem keysLt_ask {backend : Backend} {sm : SessionManager} {id : Int}
    {prompt : String} (hk : KeysLt sm) :
    KeysLt (sm.ask backend id prompt).1 := by
  unfold SessionManager.ask
  split
  · exact hk
  · split
    · exact hk
    · split
      · exact keysLt_upd _ hk
      · exact keysLt_upd _ hk

theorem keysLt_step {sm : SessionManager} (op : Op) (hk : KeysLt sm) :
    KeysLt (step sm op).1 := by
  cases op with
  | readNew offset =>
    by_cases h : 0 < offset
    · simpa [step, h] using hk
    · simpa [step, h] using keysLt_create hk
  | writeAsk id input backend =>
    by_cases h : trimSpace input = ""
    · simpa [step, writeAskFile, h] using hk
    · simpa [step, writeAskFile, h] using keysLt_ask hk
  | writeCtl id input =>
    by_cases h1 : trimSpace input = "reset"
    · simpa [step, writeCtlFile, h1] using keysLt_reset hk
    · by_cases h2 : trimSpace input = "close"
      · simpa [step, writeCtlFile, h1, h2] using keysLt_close hk
      · simpa [step, writeCtlFile, h1, h2] using hk
  | writeModel id input =>
    cases hg : sm.get id with
    | none => simpa [step, writeModelFile, hg] using hk
    | some s =>
      by_cases hm : trimSpace input = ""
      · simpa [step, writeModelFile, hg, hm] using hk
      · simpa [step, writeModelFile, hg, hm] using keysLt_upd
          (fun s => { s with model := trimSpace input }) hk
  | writeTemperature id input =>
    cases hg : sm.get id with
    | none => simpa [step, writeTemperatureFile, hg] using hk
    | some s =>
      cases hp : parseFloat? (trimSpace input) with
      | none => simpa [step, writeTemperatureFile, hg, hp] using hk
      | some t =>
        by_cases hr : ¬t.nonneg ∨ ¬t.leTwo
        · simpa [step, writeTemperatureFile, hg, hp, hr] using hk
        · simpa [step, writeTemperatureFile, hg, hp, hr] using
            keysLt_upd (fun s => { s with temperature := t }) hk
  | writeSystem id input =>
    cases hg : sm.get id with
    | none => simpa [step, writeSystemFile, hg] using hk
    | some s =>
      simpa [step, writeSystemFile, hg] using
        keysLt_upd (fun s => { s with systemPrompt := trimSpace input }) hk
  | writeThinking id input =>
    cases hg : sm.get id with
    | none => simpa [step, writeThinkingFile, hg] using hk
    | some s =>
      by_cases h1 : trimSpace input = "max" ∨ trimSpace input = "-1"
      · simpa [step, writeThinkingFile, hg, h1] using
          keysLt_upd (fun s => { s with thinkingTokens := -1 }) hk
      · by_cases h2 : trimSpace input = "disabled" ∨ trimSpace input = "off" ∨
          trimSpace input = "0"
        · simpa [step, writeThinkingFile, hg, h1, h2] using
            keysLt_upd (fun s => { s with thinkingTokens := 0 }) hk
        · cases hi : parseInt? (trimSpace input) with
          | none => simpa [step, writeThinkingFile, hg, h1, h2, hi] using hk
          | some n =>
            simpa [step, writeThinkingFile, hg, h1, h2, hi] using
              keysLt_upd (fun s => { s with thinkingTokens := n }) hk
  | writePrefill id input =>
    cases hg : sm.get id with
    | none => simpa [step, writePrefillFile, hg] using hk
    | some s =>
      simpa [step, writePrefillFile, hg] using
        keysLt_upd (fun s => { s with prefill := trimSuffixNewline input }) hk

theorem run_keysLt (ops : List Op) {sm : SessionManager} (hk : KeysLt sm) :
    KeysLt (run sm ops).1 := by
  induction ops generalizing sm with
  | nil => exact hk
  | cons op ops ih => exact ih (keysLt_step op hk)

theorem keysLt_newSessionManager : KeysLt newSessionManager := by
  intro p hp
  exact absurd hp (List.not_mem_nil p)

/-- Each step either issues nothing and keeps the counter, or issues
exactly the current counter value and bumps it by one. -/
theorem step_cases (sm : SessionManager) (op : Op) :
    ((step sm op).2 = none ∧ (step sm op).1.nextID = sm.nextID) ∨
    ((step sm op).2 = some sm.nextID ∧
      (step sm op).1.nextID = sm.nextID + 1) := by
  cases op with
  | readNew offset =>
    by_cases h : 0 < offset
    · left; simp [step, h]
    · right; simp [step, h, SessionManager.create]
  | writeAsk id input backend => left; simp [step]
  | writeCtl id input => left; simp [step]
  | writeModel id input => left; simp [step]
  | writeTemperature id input => left; simp [step]
  | writeSystem id input => left; simp [step]
  | writeThinking id input => left; simp [step]
  | writePrefill id input => left; simp [step]

/-- Along any run: the counter never decreases, every issued id lies in
the window `[start counter, final counter)`, and the issued ids are
pairwise distinct. -/
theorem run_ids_spec (ops : List Op) (sm : SessionManager) :
    sm.nextID ≤ (run sm ops).1.nextID ∧
    (run sm ops).2.Nodup ∧
    ∀ i ∈ (run sm ops).2, sm.nextID ≤ i ∧ i < (run sm ops).1.nextID := by
  induction ops generalizing sm with
  | nil => simp [run]
  | cons op ops ih =>
    obtain ⟨iha, ihb, ihc⟩ := ih (step sm op).1
    have hrun1 : (run sm (op :: ops)).1 = (run (step sm op).1 ops).1 := by
      simp [run]
    have hrun2 : (run sm (op :: ops)).2
        = (step sm op).2.toList ++ (run (step sm op).1 ops).2 := by
      simp [run]
    rcases step_cases sm op with ⟨h2, h1⟩ | ⟨h2, h1⟩
    · refine ⟨?_, ?_, ?_⟩
      · rw [hrun1]; omega
      · rw [hrun2, h2]; simpa using ihb
      · intro i hi
        rw [hrun2, h2] at hi
        simp only [Option.toList_none, List.nil_append] at hi
        have := ihc i hi
        rw [hrun1]
        omega
    · refine ⟨?_, ?_, ?_⟩
      · rw [hrun1]; omega
      · rw [hrun2, h2]
        simp only [Option.toList_some, List.singleton_append]
        refine List.nodup_cons.mpr ⟨?_, ihb⟩
        intro hmem
        have := (ihc sm.nextID hmem).1
        omega
      · intro i hi
        rw [hrun2, h2] at hi
        simp only [Option.toList_some, List.singleton_append,
          List.mem_cons] at hi
        rw [hrun1]
        rcases hi with rfl | hi
        · exact ⟨le_refl _, by omega⟩
        · have := ihc i hi
          exact ⟨by omega, this.2⟩

/-! ### Helper lemmas for token monotonicity -/

theorem totalTokens_le_same (sm : SessionManager) {id : Int} {s s' : Session}
    (hs : sm.get id = some s) (hs' : sm.get id = some s') :
    s.totalTokens ≤ s'.totalTokens := by
  rw [hs] at hs'
  obtain rfl := Option.some.inj hs'
  exact le_refl _

theorem totalTokens_le_upd (sm : SessionManager) (i : Int)
    (f : Session → Session) {id : Int} {s s' : Session}
    (hs : sm.get id = some s) (hs' : (sm.upd i f).get id = some s')
    (hf : ∀ t, t.totalTokens ≤ (f t).totalTokens) :
    s.totalTokens ≤ s'.totalTokens := by
  by_cases hii : id = i
  · subst hii
    rw [SessionManager.get_upd_self, hs] at hs'
    have : f s = s' := by simpa using hs'
    rw [← this]
    exact hf s
  · rw [SessionManager.get_upd_ne _ _ _ _ hii, hs] at hs'
    obtain rfl := Option.some.inj hs'
    exact le_refl _

theorem totalTokens_le_close (sm : SessionManager) (i : Int) {id : Int}
    {s s' : Session} (hs : sm.get id = some s)
    (hs' : (sm.close i).get id = some s') :
    s.totalTokens ≤ s'.totalTokens := by
  by_cases hii : id = i
  · subst hii
    rw [SessionManager.get_close_self] at hs'
    exact absurd hs' (by simp)
  · rw [SessionManager.get_close_ne _ _ _ hii, hs] at hs'
    obtain rfl := Option.some.inj hs'
    exact le_refl _

theorem totalTokens_le_create (sm : SessionManager) (hk : KeysLt sm)
    {id : Int} {s s' : Session} (hs : sm.get id = some s)
    (hs' : (sm.create.1).get id = some s') :
    s.totalTokens ≤ s'.totalTokens := by
  have hlt : id < sm.nextID := hk _ (SessionManager.mem_of_get_eq_some hs)
  rw [SessionManager.get_create_ne _ _ (by omega), hs] at hs'
  obtain rfl := Option.some.inj hs'
  exact le_refl _

theorem totalTokens_le_ask (backend : Backend) (sm : SessionManager)
    (i : Int) (prompt : String) {id : Int} {s s' : Session}
    (hs : sm.get id = some s)
    (hs' : ((sm.ask backend i prompt).1).get id = some s') :
    s.totalTokens ≤ s'.totalTokens := by
  unfold SessionManager.ask at hs'
  cases hgi : sm.get i with
  | none =>
    simp only [hgi] at hs'
    exact totalTokens_le_same sm hs hs'
  | some sGet =>
    simp only [hgi] at hs'
    by_cases hcl : sGet.closed
    · simp only [hcl, if_true] at hs'
      exact totalTokens_le_same sm hs hs'
    · simp only [hcl, if_false, Bool.false_eq_true] at hs'
      cases hb : backend (SessionManager.buildReq sGet prompt) with
      | error e =>
        simp only [hb] at hs'
        exact totalTokens_le_upd sm i _ hs hs' (fun t => le_refl _)
      | ok pr =>
        obtain ⟨resp, tok⟩ := pr
        simp only [hb] at hs'
        exact totalTokens_le_upd sm i _ hs hs' (fun t => Nat.le_add_right _ _)

theorem totalTokens_le_step (sm : SessionManager) (hk : KeysLt sm) (op : Op)
    (hop : ¬op.isReset) {id : Int} {s s' : Session}
    (hs : sm.get id = some s) (hs' : ((step sm op).1).get id = some s') :
    s.totalTokens ≤ s'.totalTokens := by
  cases op with
  | readNew offset =>
    by_cases h : 0 < offset
    · rw [show (step sm (Op.readNew offset)).1 = sm by simp [step, h]] at hs'
      exact totalTokens_le_same sm hs hs'
    · rw [show (step sm (Op.readNew offset)).1 = sm.create.1 by
        simp [step, h]] at hs'
      exact totalTokens_le_create sm hk hs hs'
  | writeAsk i input backend =>
    by_cases h : trimSpace input = ""
    · rw [show (step sm (Op.writeAsk i input backend)).1 = sm by
        simp [step, writeAskFile, h]] at hs'
      exact totalTokens_le_same sm hs hs'
    · rw [show (step sm (Op.writeAsk i input backend)).1
          = (sm.ask backend i (trimSpace input)).1 by
        simp [step, writeAskFile, h]] at hs'
      exact totalTokens_le_ask backend sm i (trimSpace input) hs hs'
  | writeCtl i input =>
    have h1 : ¬trimSpace input = "reset" := hop
    by_cases h2 : trimSpace input = "close"
    · rw [show (step sm (Op.writeCtl i input)).1 = sm.close i by
        simp [step, writeCtlFile, h1, h2]] at hs'
      exact totalTokens_le_close sm i hs hs'
    · rw [show (step sm (Op.writeCtl i input)).1 = sm by
        simp [step, writeCtlFile, h1, h2]] at hs'
      exact totalTokens_le_same sm hs hs'
  | writeModel i input =>
    cases hg : sm.get i with
    | none =>
      rw [show (step sm (Op.writeModel i input)).1 = sm by
        simp [step, writeModelFile, hg]] at hs'
      exact totalTokens_le_same sm hs hs'
    | some t =>
      by_cases hm : trimSpace input = ""
      · rw [show (step sm (Op.writeModel i input)).1 = sm by
          simp [step, writeModelFile, hg, hm]] at hs'
        exact totalTokens_le_same sm hs hs'
      · rw [show (step sm (Op.writeModel i input)).1
            = sm.upd i (fun s => { s with model := trimSpace input }) by
          simp [step, writeModelFile, hg, hm]] at hs'
        exact totalTokens_le_upd sm i _ hs hs' (fun t => le_refl _)
  | writeTemperature i input =>
    cases hg : sm.get i with
    | none =>
      rw [show (step sm (Op.writeTemperature i input)).1 = sm by
        simp [step, writeTemperatureFile, hg]] at hs'
      exact totalTokens_le_same sm hs hs'
    | some t =>
      cases hp : parseFloat? (trimSpace input) with
      | none =>
        rw [show (step sm (Op.writeTemperature i input)).1 = sm by
          simp [step, writeTemperatureFile, hg, hp]] at hs'
        exact totalTokens_le_same sm hs hs'
      | some d =>
        by_cases hr : ¬d.nonneg ∨ ¬d.leTwo
        · rw [show (step sm (Op.writeTemperature i input)).1 = sm by
            simp [step, writeTemperatureFile, hg, hp, hr]] at hs'
          exact totalTokens_le_same sm hs hs'
        · rw [show (step sm (Op.writeTemperature i input)).1
              = sm.upd i (fun s => { s with temperature := d }) by
            simp [step, writeTemperatureFile, hg, hp, hr]] at hs'
          exact totalTokens_le_upd sm i _ hs hs' (fun t => le_refl _)
  | writeSystem i input =>
    cases hg : sm.get i with
    | none =>
      rw [show (step sm (Op.writeSystem i input)).1 = sm by
        simp [step, writeSystemFile, hg]] at hs'
      exact totalTokens_le_same sm hs hs'
    | some t =>
      rw [show (step sm (Op.writeSystem i input)).1
          = sm.upd i (fun s => { s with systemPrompt := trimSpace input }) by
        simp [step, writeSystemFile, hg]] at hs'
      exact totalTokens_le_upd sm i _ hs hs' (fun t => le_refl _)
  | writeThinking i input =>
    cases hg : sm.get i with
    | none =>
      rw [show (step sm (Op.writeThinking i input)).1 = sm by
        simp [step, writeThinkingFile, hg]] at hs'
      exact totalTokens_le_same sm hs hs'
    | some t =>
      by_cases h1 : trimSpace input = "max" ∨ trimSpace input = "-1"
      · rw [show (step sm (Op.writeThinking i input)).1
            = sm.upd i (fun s => { s with thinkingTokens := -1 }) by
          simp [step, writeThinkingFile, hg, h1]] at hs'
        exact totalTokens_le_upd sm i _ hs hs' (fun t => le_refl _)
      · by_cases h2 : trimSpace input = "disabled" ∨ trimSpace input = "off" ∨
          trimSpace input = "0"
        · rw [show (step sm (Op.writeThinking i input)).1
              = sm.upd i (fun s => { s with thinkingTokens := 0 }) by
            simp [step, writeThinkingFile, hg, h1, h2]] at hs'
          exact totalTokens_le_upd sm i _ hs hs' (fun t => le_refl _)
        · cases hi : parseInt? (trimSpace input) with
          | none =>
            rw [show (step sm (Op.writeThinking i input)).1 = sm by
              simp [step, writeThinkingFile, hg, h1, h2, hi]] at hs'
            exact totalTokens_le_same sm hs hs'
          | some n =>
            rw [show (step sm (Op.writeThinking i input)).1
                = sm.upd i (fun s => { s with thinkingTokens := n }) by
              simp [step, writeThinkingFile, hg, h1, h2, hi]] at hs'
            exact totalTokens_le_upd sm i _ hs hs' (fun t => le_refl _)
  | writePrefill i input =>
    cases hg : sm.get i with
    | none =>
      rw [show (step sm (Op.writePrefill i input)).1 = sm by
        simp [step, writePrefillFile, hg]] at hs'
      exact totalTokens_le_same sm hs hs'
    | some t =>
      rw [show (step sm (Op.writePrefill i input)).1
          = sm.upd i (fun s => { s with prefill := trimSuffixNewline input }) by
        simp [step, writePrefillFile, hg]] at hs'
      exact totalTokens_le_upd sm i _ hs hs' (fun t => le_refl _)

/-! ### Claim theorems -/

/-- C2: along every operation sequence starting from a fresh manager, the
ids issued by `Create` (triggered through creating reads of `new`) are
pairwise distinct, and the next-id counter stays strictly greater than
every id ever returned — so no id is ever issued twice, even after
sessions are closed and removed. -/
theorem create_ids_unique (ops : List Op) :
    ((run newSessionManager ops).2).Nodup ∧
    ∀ i ∈ (run newSessionManager ops).2,
      i < (run newSessionManager ops).1.nextID := by
  obtain ⟨_, hb, hc⟩ := run_ids_spec ops newSessionManager
  exact ⟨hb, fun i hi => (hc i hi).2⟩

/-- Witness for C2 at a concrete two-creation run: the issued ids are
`[0, 1]` and each is below the final counter. -/
theorem create_ids_unique_witness :
    ((run newSessionManager [Op.readNew 0, Op.readNew 0]).2).Nodup ∧
    (0 : Int) < (run newSessionManager [Op.readNew 0, Op.readNew 0]).1.nextID :=
  ⟨(create_ids_unique [Op.readNew 0, Op.readNew 0]).1,
   (create_ids_unique [Op.readNew 0, Op.readNew 0]).2 0 (by decide)⟩

/-- C10: in every reachable manager state, a session found in the registry
has its closed flag false, and therefore a sequential `Ask` on a
registered id never reports the session-closed error (a closed session is
observable only as `NotFound`). -/
theorem registered_sessions_never_closed (ops : List Op) (id : Int)
    (s : Session) (backend : Backend) (prompt : String)
    (h : ((run newSessionManager ops).1).get id = some s) :
    s.closed = false ∧
    ((run newSessionManager ops).1.ask backend id prompt).2
      ≠ Except.error AskError.closed := by
  have ho := run_allOpen ops allOpen_newSessionManager
  have hcl : s.closed = false := ho _ (SessionManager.mem_of_get_eq_some h)
  refine ⟨hcl, ?_⟩
  unfold SessionManager.ask
  simp only [h, hcl]
  cases hb : backend (SessionManager.buildReq s prompt) with
  | error e => simp [hb]
  | ok pr =>
    obtain ⟨resp, tok⟩ := pr
    simp [hb]

/-- Witness for C10: after one creating read of `new`, session 0 is
registered, open, and `Ask` on it does not report the closed error. -/
theorem registered_sessions_never_closed_witness :
    (newSession 0 defaultSessionDefaults).closed = false ∧
    ((run newSessionManager [Op.readNew 0]).1.ask
        (fun _ => Except.error "x") 0 "hi").2
      ≠ Except.error AskError.closed :=
  registered_sessions_never_closed [Op.readNew 0] 0
    (newSession 0 defaultSessionDefaults) (fun _ => Except.error "x") "hi" rfl

/-- C4 counterexample: the claim "no operation of the program ever makes a
session's totalTokens counter smaller" is false — after a successful ask
accumulates 5 tokens, a `reset` control write drops the counter back to
0. -/
theorem totalTokens_decreases_on_reset :
    ((run newSessionManager [Op.readNew 0,
        Op.writeAsk 0 "q" (fun _ => Except.ok ("r", 5))]).1.get 0).map
      Session.totalTokens = some 5 ∧
    ((run newSessionManager [Op.readNew 0,
        Op.writeAsk 0 "q" (fun _ => Except.ok ("r", 5)),
        Op.writeCtl 0 "reset"]).1.get 0).map
      Session.totalTokens = some 0 ∧
    ¬(5 : Nat) ≤ 0 := by
  refine ⟨by decide, by decide, by decide⟩

/-- C4 amended: `totalTokens` is monotonically non-decreasing under every
operation except a `reset` control write (which Go `Session.Reset`
documents as clearing the counters): from any reachable state, any
non-reset operation leaves every surviving session's `totalTokens` at
least as large as before. -/
theorem totalTokens_mono_except_reset (ops : List Op) (op : Op)
    (hop : ¬op.isReset) (id : Int) (s s' : Session)
    (hs : ((run newSessionManager ops).1).get id = some s)
    (hs' : (step (run newSessionManager ops).1 op).1.get id = some s') :
    s.totalTokens ≤ s'.totalTokens := by
  have hk := run_keysLt ops keysLt_newSessionManager
  exact totalTokens_le_step _ hk op hop hs hs'

/-- Witness for C4 amended: a model write on session 0 keeps the counter
(5 before and after). -/
theorem totalTokens_mono_except_reset_witness :
    ¬(Op.writeModel 0 "m").isReset ∧
    (5 : Nat) ≤ 5 := by
  constructor
  · decide
  · exact totalTokens_mono_except_reset
      [Op.readNew 0, Op.writeAsk 0 "q" (fun _ => Except.ok ("r", 5))]
      (Op.writeModel 0 "m") (by decide) 0
      { newSession 0 defaultSessionDefaults with
          messages := [⟨"user", "q"⟩, ⟨"assistant", "r"⟩],
          lastTokens := 5, totalTokens := 5, lastResponse := "r" }
      { newSession 0 defaultSessionDefaults with
          messages := [⟨"user", "q"⟩, ⟨"assistant", "r"⟩],
          lastTokens := 5, totalTokens := 5, lastResponse := "r",
          model := "m" }
      (by decide) (by decide)

/-- C1: for a registered, non-closed session and a non-empty (after
trimming) prompt, a failing backend call during `Ask` leaves the history
and both token counters untouched, overwrites `lastResult` with the
formatted failure text `"Error: " ++ msg`, and the `ask`-file write still
reports successful completion of the full input byte count.  (The record
update in the conclusion pins every other session field to its prior
value.) -/
theorem ask_failure_behavior (backend : Backend) (sm : SessionManager)
    (id : Int) (s : Session) (input e : String)
    (hs : sm.get id = some s) (hcl : s.closed = false)
    (hne : trimSpace input ≠ "")
    (hb : backend (SessionManager.buildReq s (trimSpace input))
      = Except.error e) :
    (writeAskFile backend sm id input).2 = Except.ok input.length ∧
    (writeAskFile backend sm id input).1.get id
      = some { s with lastResponse := "Error: " ++ e } := by
  constructor
  · simp [writeAskFile, hne]
  · have hfst : (writeAskFile backend sm id input).1
        = sm.upd id (fun t => { t with lastResponse := "Error: " ++ e }) := by
      simp [writeAskFile, hne, SessionManager.ask, hs, hcl, hb]
    rw [hfst, SessionManager.get_upd_self, hs]
    rfl

/-- Witness for C1: session 0 of a fresh creation, prompt `"hi"`, backend
failing with `"boom"`: the write reports 2 bytes and the stored last
response is the formatted failure. -/
theorem ask_failure_behavior_witness :
    trimSpace "hi" ≠ "" ∧
    (writeAskFile (fun _ => Except.error "boom")
        (run newSessionManager [Op.readNew 0]).1 0 "hi").2
      = Except.ok 2 ∧
    (writeAskFile (fun _ => Except.error "boom")
        (run newSessionManager [Op.readNew 0]).1 0 "hi").1.get 0
      = some { newSession 0 defaultSessionDefaults with
          lastResponse := "Error: boom" } := by
  refine ⟨by decide, ?_, ?_⟩
  · exact (ask_failure_behavior (fun _ => Except.error "boom")
      (run newSessionManager [Op.readNew 0]).1 0
      (newSession 0 defaultSessionDefaults) "hi" "boom" (by decide) rfl
      (by decide) rfl).1
  · exact (ask_failure_behavior (fun _ => Except.error "boom")
      (run newSessionManager [Op.readNew 0]).1 0
      (newSession 0 defaultSessionDefaults) "hi" "boom" (by decide) rfl
      (by decide) rfl).2

/-- C3: for a registered, non-closed session, a successful `Ask` appends
exactly the user entry (holding the prompt) followed by the assistant
entry (holding the response) to the history, sets `lastTokens` to the
returned count and adds it to `totalTokens`, sets `lastResult` to the
response text, and — as the record update pins — changes no other session
field; the call reports the response. -/
theorem ask_success_behavior (backend : Backend) (sm : SessionManager)
    (id : Int) (s : Session) (prompt response : String) (tokens : Nat)
    (hs : sm.get id = some s) (hcl : s.closed = false)
    (hb : backend (SessionManager.buildReq s prompt)
      = Except.ok (response, tokens)) :
    (sm.ask backend id prompt).2 = Except.ok response ∧
    (sm.ask backend id prompt).1.get id
      = some { s with
          messages := s.messages ++
            [⟨"user", prompt⟩, ⟨"assistant", response⟩],
          lastTokens := tokens,
          totalTokens := s.totalTokens + tokens,
          lastResponse := response } := by
  constructor
  · simp [SessionManager.ask, hs, hcl, hb]
  · have hfst : (sm.ask backend id prompt).1
        = sm.upd id (fun t =>
            { t with
              messages := t.messages ++
                [⟨"user", prompt⟩, ⟨"assistant", response⟩],
              lastTokens := tokens,
              totalTokens := t.totalTokens + tokens,
              lastResponse := response }) := by
      simp [SessionManager.ask, hs, hcl, hb]
    rw [hfst, SessionManager.get_upd_self, hs]
    rfl

/-- Witness for C3: session 0 of a fresh creation, prompt `"q"`, backend
answering `"r"` with 5 tokens. -/
theorem ask_success_behavior_witness :
    ((run newSessionManager [Op.readNew 0]).1.ask
        (fun _ => Except.ok ("r", 5)) 0 "q").2 = Except.ok "r" ∧
    ((run newSessionManager [Op.readNew 0]).1.ask
        (fun _ => Except.ok ("r", 5)) 0 "q").1.get 0
      = some { newSession 0 defaultSessionDefaults with
          messages := [⟨"user", "q"⟩, ⟨"assistant", "r"⟩],
          lastTokens := 5,
          totalTokens := 5,
          lastResponse := "r" } := by
  refine ⟨?_, ?_⟩
  · exact (ask_success_behavior (fun _ => Except.ok ("r", 5))
      (run newSessionManager [Op.readNew 0]).1 0
      (newSession 0 defaultSessionDefaults) "q" "r" 5 (by decide) rfl rfl).1
  · exact (ask_success_behavior (fun _ => Except.ok ("r", 5))
      (run newSessionManager [Op.readNew 0]).1 0
      (newSession 0 defaultSessionDefaults) "q" "r" 5 (by decide) rfl rfl).2

/-- C7: writing a decimal text that parses to a value `t` within
`[0.0, 2.0]` succeeds and a subsequent read returns `t` formatted to
exactly two decimal places followed by a newline; unparsable text or a
value outside the range is rejected with an error and the whole manager —
in particular the stored temperature — is left unchanged. -/
theorem temperature_write_read (sm : SessionManager) (id : Int)
    (s : Session) (input : String) (hs : sm.get id = some s) :
    (∀ t : Dec, parseFloat? (trimSpace input) = some t →
      t.nonneg → t.leTwo →
      (writeTemperatureFile sm id input).2 = Except.ok input.length ∧
      ((writeTemperatureFile sm id input).1.get id).map temperatureContent
        = some (format2 t ++ "\n")) ∧
    (parseFloat? (trimSpace input) = none →
      writeTemperatureFile sm id input
        = (sm, Except.error (FsError.invalid "invalid temperature"))) ∧
    (∀ t : Dec, parseFloat? (trimSpace input) = some t →
      (¬t.nonneg ∨ ¬t.leTwo) →
      writeTemperatureFile sm id input
        = (sm, Except.error (FsError.invalid
            "temperature must be between 0.0 and 2.0"))) := by
  refine ⟨?_, ?_, ?_⟩
  · intro t ht h0 h2
    have hr : ¬(¬t.nonneg ∨ ¬t.leTwo) := by
      push_neg
      exact ⟨h0, h2⟩
    have hfst : (writeTemperatureFile sm id input).1
        = sm.upd id (fun u => { u with temperature := t }) := by
      simp [writeTemperatureFile, hs, ht, hr]
    refine ⟨by simp [writeTemperatureFile, hs, ht, hr], ?_⟩
    rw [hfst, SessionManager.get_upd_self, hs]
    rfl
  · intro ht
    simp [writeTemperatureFile, hs, ht]
  · intro t ht hr
    simp [writeTemperatureFile, hs, ht, hr]

/-- Witness for C7: writing `"0.5"` to session 0 stores 0.5 and reads back
`"0.50\n"`, matching the spec's example. -/
theorem temperature_write_read_witness :
    parseFloat? (trimSpace "0.5") = some ⟨5, 1⟩ ∧
    (writeTemperatureFile (run newSessionManager [Op.readNew 0]).1 0
      "0.5").2 = Except.ok 3 ∧
    ((writeTemperatureFile (run newSessionManager [Op.readNew 0]).1 0
      "0.5").1.get 0).map temperatureContent = some "0.50\n" := by
  have h := (temperature_write_read
    (run newSessionManager [Op.readNew 0]).1 0
    (newSession 0 defaultSessionDefaults) "0.5" rfl).1
    ⟨5, 1⟩ (by decide) (by decide) (by decide)
  refine ⟨by decide, h.1, ?_⟩
  rw [h.2]
  decide

/-- C8: `"max"` and `"-1"` written to `thinking` produce identical states
and read back `"max\n"`; `"disabled"`, `"off"` and `"0"` produce identical
states and read back `"disabled\n"`; `"500"` reads back `"500\n"`; text
that is neither a synonym nor an `Atoi`-parsable integer is rejected with
an error, leaving the manager unchanged. -/
theorem thinking_write_read (sm : SessionManager) (id : Int) (s : Session)
    (hs : sm.get id = some s) :
    (writeThinkingFile sm id "max").1 = (writeThinkingFile sm id "-1").1 ∧
    ((writeThinkingFile sm id "max").1.get id).map thinkingContent
      = some "max\n" ∧
    (writeThinkingFile sm id "disabled").1
      = (writeThinkingFile sm id "off").1 ∧
    (writeThinkingFile sm id "off").1 = (writeThinkingFile sm id "0").1 ∧
    ((writeThinkingFile sm id "disabled").1.get id).map thinkingContent
      = some "disabled\n" ∧
    ((writeThinkingFile sm id "500").1.get id).map thinkingContent
      = some "500\n" ∧
    (∀ input, parseInt? (trimSpace input) = none →
      ¬(trimSpace input = "max" ∨ trimSpace input = "-1") →
      ¬(trimSpace input = "disabled" ∨ trimSpace input = "off" ∨
        trimSpace input = "0") →
      writeThinkingFile sm id input
        = (sm, Except.error (FsError.invalid "invalid thinking budget"))) := by
  have cmax : trimSpace "max" = "max" ∨ trimSpace "max" = "-1" := by decide
  have cm1 : trimSpace "-1" = "max" ∨ trimSpace "-1" = "-1" := by decide
  have cdisA : ¬(trimSpace "disabled" = "max" ∨
      trimSpace "disabled" = "-1") := by decide
  have cdisB : trimSpace "disabled" = "disabled" ∨
      trimSpace "disabled" = "off" ∨ trimSpace "disabled" = "0" := by decide
  have coffA : ¬(trimSpace "off" = "max" ∨ trimSpace "off" = "-1") := by
    decide
  have coffB : trimSpace "off" = "disabled" ∨ trimSpace "off" = "off" ∨
      trimSpace "off" = "0" := by decide
  have czA : ¬(trimSpace "0" = "max" ∨ trimSpace "0" = "-1") := by decide
  have czB : trimSpace "0" = "disabled" ∨ trimSpace "0" = "off" ∨
      trimSpace "0" = "0" := by decide
  have c5A : ¬(trimSpace "500" = "max" ∨ trimSpace "500" = "-1") := by decide
  have c5B : ¬(trimSpace "500" = "disabled" ∨ trimSpace "500" = "off" ∨
      trimSpace "500" = "0") := by decide
  have c5C : parseInt? (trimSpace "500") = some 500 := by decide
  have hmax : (writeThinkingFile sm id "max").1
      = sm.upd id (fun u => { u with thinkingTokens := -1 }) := by
    simp [writeThinkingFile, hs, cmax]
  have hm1 : (writeThinkingFile sm id "-1").1
      = sm.upd id (fun u => { u with thinkingTokens := -1 }) := by
    simp [writeThinkingFile, hs, cm1]
  have hdis : (writeThinkingFile sm id "disabled").1
      = sm.upd id (fun u => { u with thinkingTokens := 0 }) := by
    simp [writeThinkingFile, hs, cdisA, cdisB]
  have hoff : (writeThinkingFile sm id "off").1
      = sm.upd id (fun u => { u with thinkingTokens := 0 }) := by
    simp [writeThinkingFile, hs, coffA, coffB]
  have hzero : (writeThinkingFile sm id "0").1
      = sm.upd id (fun u => { u with thinkingTokens := 0 }) := by
    simp [writeThinkingFile, hs, czA, czB]
  have h500 : (writeThinkingFile sm id "500").1
      = sm.upd id (fun u => { u with thinkingTokens := 500 }) := by
    simp [writeThinkingFile, hs, c5A, c5B, c5C]
  refine ⟨hmax.trans hm1.symm, ?_, hdis.trans hoff.symm,
    hoff.trans hzero.symm, ?_, ?_, ?_⟩
  · rw [hmax, SessionManager.get_upd_self, hs]
    rfl
  · rw [hdis, SessionManager.get_upd_self, hs]
    rfl
  · rw [h500, SessionManager.get_upd_self, hs]
    rfl
  · intro input hpi hsyn1 hsyn2
    simp [writeThinkingFile, hs, hpi, hsyn1, hsyn2]

/-- Witness for C8 at session 0 of a fresh creation: the `"max"` read-back
and the rejection of `"abc"`. -/
theorem thinking_write_read_witness :
    ((writeThinkingFile (run newSessionManager [Op.readNew 0]).1 0
      "max").1.get 0).map thinkingContent = some "max\n" ∧
    writeThinkingFile (run newSessionManager [Op.readNew 0]).1 0 "abc"
      = ((run newSessionManager [Op.readNew 0]).1,
         Except.error (FsError.invalid "invalid thinking budget")) := by
  have h := thinking_write_read (run newSessionManager [Op.readNew 0]).1 0
    (newSession 0 defaultSessionDefaults) rfl
  exact ⟨h.2.1, h.2.2.2.2.2.2 "abc" (by decide) (by decide) (by decide)⟩

/-- C9: a prefill write stores the input with no whitespace trimming of
any kind except that exactly one trailing newline, if present, is
stripped; a read then returns the stored value, appending one newline
exactly when the stored value is non-empty and not already
newline-terminated. -/
theorem prefill_write_read (sm : SessionManager) (id : Int) (s : Session)
    (input : String) (hs : sm.get id = some s) :
    (writePrefillFile sm id input).2 = Except.ok input.length ∧
    (writePrefillFile sm id input).1.get id
      = some { s with prefill := trimSuffixNewline input } ∧
    ((writePrefillFile sm id input).1.get id).map prefillContent
      = some (if trimSuffixNewline input ≠ "" ∧
                ¬endsWithNewline (trimSuffixNewline input)
              then trimSuffixNewline input ++ "\n"
              else trimSuffixNewline input) := by
  have hfst : (writePrefillFile sm id input).1
      = sm.upd id (fun u => { u with prefill := trimSuffixNewline input }) := by
    simp [writePrefillFile, hs]
  refine ⟨by simp [writePrefillFile, hs], ?_, ?_⟩
  · rw [hfst, SessionManager.get_upd_self, hs]
    rfl
  · rw [hfst, SessionManager.get_upd_self, hs]
    rfl

/-- Witness for C9: writing `"Sure, here is  "` (trailing spaces, no
newline) to session 0 stores it verbatim and reads back exactly
`"Sure, here is  \n"`. -/
theorem prefill_write_read_witness :
    (writePrefillFile (run newSessionManager [Op.readNew 0]).1 0
      "Sure, here is  ").2 = Except.ok 15 ∧
    ((writePrefillFile (run newSessionManager [Op.readNew 0]).1 0
      "Sure, here is  ").1.get 0).map prefillContent
      = some "Sure, here is  \n" := by
  have h := prefill_write_read (run newSessionManager [Op.readNew 0]).1 0
    (newSession 0 defaultSessionDefaults) "Sure, here is  " rfl
  refine ⟨h.1, ?_⟩
  rw [h.2.2]
  decide

/-- C5 counterexample: after session 0 receives the response `"hi"`, the
`ask` file's stat reports 2 bytes while a fresh offset-zero read
synthesizes `"hi\n"` (3 bytes); the `thinking` file's stat reports the
constant 16 while its read content `"disabled\n"` has 9 bytes.  The claim
that every leaf file's stat size equals its freshly synthesized read
length is therefore false. -/
theorem stat_length_mismatch :
    askStatLen (run newSessionManager [Op.readNew 0,
      Op.writeAsk 0 "q" (fun _ => Except.ok ("hi", 3))]).1 0 = some 2 ∧
    ((run newSessionManager [Op.readNew 0,
      Op.writeAsk 0 "q" (fun _ => Except.ok ("hi", 3))]).1.get 0).map
        (fun s => (askContent s).length) = some 3 ∧
    thinkingStatLen (run newSessionManager [Op.readNew 0,
      Op.writeAsk 0 "q" (fun _ => Except.ok ("hi", 3))]).1 0 = some 16 ∧
    ((run newSessionManager [Op.readNew 0,
      Op.writeAsk 0 "q" (fun _ => Except.ok ("hi", 3))]).1.get 0).map
        (fun s => (thinkingContent s).length) = some 9 ∧
    (2 : Nat) ≠ 3 ∧ (16 : Nat) ≠ 9 := by
  refine ⟨by decide, by decide, by decide, by decide, by decide, by decide⟩

/-- C5 amended: the stat size equals the byte length of a fresh
offset-zero read for the `context`, `model` and `temperature` files
unconditionally, and for the `system` and `prefill` files whenever the
stored value is non-empty and not already newline-terminated (writes
through the tree keep `system` in that shape; `prefill` can escape it);
the `ask` file's stat instead reports the raw last-response length,
omitting the newline the read appends, and the `thinking` file's stat is
the constant estimate 16 regardless of content. -/
theorem stat_length_spec (sm : SessionManager) (id : Int) (s : Session)
    (hs : sm.get id = some s) :
    contextStatLen sm id = some (contextContent s).length ∧
    modelStatLen sm id = some (modelContent s).length ∧
    temperatureStatLen sm id = some (temperatureContent s).length ∧
    (s.systemPrompt ≠ "" → ¬endsWithNewline s.systemPrompt →
      systemStatLen sm id = some (systemContent s).length) ∧
    (s.prefill ≠ "" → ¬endsWithNewline s.prefill →
      prefillStatLen sm id = some (prefillContent s).length) ∧
    askStatLen sm id = some s.lastResponse.length ∧
    thinkingStatLen sm id = some 16 := by
  refine ⟨?_, ?_, ?_, ?_, ?_, ?_, rfl⟩
  · simp [contextStatLen, contextContent, hs, String.length_append]
    rfl
  · simp [modelStatLen, modelContent, hs, String.length_append]
    rfl
  · simp [temperatureStatLen, temperatureContent, hs]
  · intro h1 h2
    simp [systemStatLen, systemContent, hs, h1, h2, String.length_append]
    rfl
  · intro h1 h2
    simp [prefillStatLen, prefillContent, hs, h1, h2, String.length_append]
    rfl
  · simp [askStatLen, hs]

/-- Witness for C5 amended: a session with model `"m"`, system prompt
`"sp"` and prefill `"pf"` — each stat matches the corresponding fresh
read length, and the ask/thinking stats show their special shapes. -/
theorem stat_length_spec_witness :
    (run newSessionManager [Op.readNew 0, Op.writeSystem 0 "sp",
        Op.writePrefill 0 "pf"]).1.get 0
      = some { newSession 0 defaultSessionDefaults with
          systemPrompt := "sp", prefill := "pf" } ∧
    contextStatLen (run newSessionManager [Op.readNew 0,
        Op.writeSystem 0 "sp", Op.writePrefill 0 "pf"]).1 0 = some 3 ∧
    systemStatLen (run newSessionManager [Op.readNew 0,
        Op.writeSystem 0 "sp", Op.writePrefill 0 "pf"]).1 0 = some 3 := by
  have h := stat_length_spec (run newSessionManager [Op.readNew 0,
      Op.writeSystem 0 "sp", Op.writePrefill 0 "pf"]).1 0
    { newSession 0 defaultSessionDefaults with
        systemPrompt := "sp", prefill := "pf" } (by decide)
  refine ⟨by decide, ?_, ?_⟩
  · rw [h.1]; decide
  · rw [h.2.2.2.1 (by decide) (by decide)]; decide

/-- C6 counterexample: after session 0 is closed via its ctl file, its id
is unregistered, yet a `reset` write to its ctl file reports success
(5 bytes) and a prompt write to its ask file reports success (2 bytes) —
neither fails `NotFound`, refuting the claim that every further
read/write on the closed id's leaf files fails `NotFound`. -/
theorem closed_session_write_not_notFound :
    (run newSessionManager [Op.readNew 0, Op.writeCtl 0 "close"]).1.get 0
      = none ∧
    (writeCtlFile (run newSessionManager
        [Op.readNew 0, Op.writeCtl 0 "close"]).1 0 "reset").2
      = Except.ok 5 ∧
    (writeAskFile (fun _ => Except.error "x") (run newSessionManager
        [Op.readNew 0, Op.writeCtl 0 "close"]).1 0 "hi").2
      = Except.ok 2 ∧
    (Except.ok (5 : Nat) : Except FsError Nat)
      ≠ Except.error FsError.notFound := by
  refine ⟨by decide, rfl, rfl, by simp⟩

/-- C6 amended: once an id is no longer registered, its directory is
absent from the root listing, a root lookup of its decimal name fails
`NotFound`, every lookup inside the session directory fails `NotFound`,
every leaf read except `ctl` fails `NotFound`, and the five setting
writes fail `NotFound`; however the `ctl` file — which never consults the
registry — still answers end-of-data on read and accepts `reset` and
`close` as successful no-ops (rejecting other commands), and a non-empty
`ask` write still reports success while leaving the manager unchanged,
because the write layer absorbs the `NotFound` from `Ask`. -/
theorem closed_session_spec (sm : SessionManager) (id : Int)
    (h : sm.get id = none) :
    id ∉ sm.listSessions ∧
    (∀ name, parseInt? name = some id →
      rootLookup sm name = Except.error FsError.notFound) ∧
    (∀ name, sessionDirLookup sm id name = Except.error FsError.notFound) ∧
    (∀ cap offset,
      readAskFile sm id cap offset = Except.error FsError.notFound ∧
      readContextFile sm id cap offset = Except.error FsError.notFound ∧
      readModelFile sm id cap offset = Except.error FsError.notFound ∧
      readTemperatureFile sm id cap offset = Except.error FsError.notFound ∧
      readSystemFile sm id cap offset = Except.error FsError.notFound ∧
      readThinkingFile sm id cap offset = Except.error FsError.notFound ∧
      readPrefillFile sm id cap offset = Except.error FsError.notFound) ∧
    (∀ input,
      (writeModelFile sm id input).2 = Except.error FsError.notFound ∧
      (writeTemperatureFile sm id input).2 = Except.error FsError.notFound ∧
      (writeSystemFile sm id input).2 = Except.error FsError.notFound ∧
      (writeThinkingFile sm id input).2 = Except.error FsError.notFound ∧
      (writePrefillFile sm id input).2 = Except.error FsError.notFound) ∧
    (∀ cap offset, readCtlFile sm id cap offset = Except.error FsError.eof) ∧
    writeCtlFile sm id "reset" = (sm, Except.ok 5) ∧
    writeCtlFile sm id "close" = (sm, Except.ok 5) ∧
    (∀ input backend, trimSpace input ≠ "" →
      writeAskFile backend sm id input = (sm, Except.ok input.length)) := by
  have hreset : sm.reset id = sm := by
    unfold SessionManager.reset
    rw [h]
  have hclose : sm.close id = sm := by
    unfold SessionManager.close
    rw [h]
  refine ⟨?_, ?_, ?_, ?_, ?_, ?_, ?_, ?_, ?_⟩
  · intro hmem
    obtain ⟨p, hp, hp1⟩ := List.mem_map.mp hmem
    exact SessionManager.get_eq_none_iff.mp h p hp hp1
  · intro name hp
    have hne : ¬name = "new" := by
      intro hn
      rw [hn] at hp
      have hnone : parseInt? "new" = none := by decide
      rw [hnone] at hp
      exact Option.noConfusion hp
    simp [rootLookup, hne, hp, h]
  · intro name
    simp [sessionDirLookup, h]
  · intro cap offset
    refine ⟨?_, ?_, ?_, ?_, ?_, ?_, ?_⟩ <;>
      simp [readAskFile, readContextFile, readModelFile,
        readTemperatureFile, readSystemFile, readThinkingFile,
        readPrefillFile, h]
  · intro input
    refine ⟨?_, ?_, ?_, ?_, ?_⟩ <;>
      simp [writeModelFile, writeTemperatureFile, writeSystemFile,
        writeThinkingFile, writePrefillFile, h]
  · intro cap offset
    rfl
  · have h0 : trimSpace "reset" = "reset" := by decide
    have hlen : ("reset" : String).length = 5 := rfl
    simp [writeCtlFile, h0, hreset, hlen]
  · have h1 : trimSpace "close" = "close" := by decide
    have h2 : ¬trimSpace "close" = "reset" := by decide
    have hlen : ("close" : String).length = 5 := rfl
    simp [writeCtlFile, h1, h2, hclose, hlen]
  · intro input backend hne
    simp [writeAskFile, hne, SessionManager.ask, h]

/-- Witness for C6 amended at the concrete closed session 0: its id is
gone from the listing and a model write fails `NotFound`. -/
theorem closed_session_spec_witness :
    (0 : Int) ∉ (run newSessionManager
      [Op.readNew 0, Op.writeCtl 0 "close"]).1.listSessions ∧
    (writeModelFile (run newSessionManager
        [Op.readNew 0, Op.writeCtl 0 "close"]).1 0 "m").2
      = Except.error FsError.notFound := by
  have h := closed_session_spec (run newSessionManager
    [Op.readNew 0, Op.writeCtl 0 "close"]).1 0 (by decide)
  exact ⟨h.1, (h.2.2.2.2.1 "m").1⟩

end Llm9p
